import Mathlib

/-!
Shallow embedding of the my-rail-commute data pipeline:
the departure-board service parser (`api.py`), the HTTP retry engine
(`api.py::_request`), the snapshot coordinator (`coordinator.py`) and the
per-slot platform-change tracker (`sensor.py`), together with theorems
checking the natural-language specification against this embedding.
-/

namespace RailCommute

/-! ## Python `datetime.strptime` model for the `"%Y-%m-%d %H:%M"` fragment

Both `api.py::_parse_service` and `coordinator.py::_filter_departed_trains`
parse wall-clock strings by prefixing a fixed reference date:
`datetime.strptime(f"2000-01-01 {s}", "%Y-%m-%d %H:%M")`.
The fixed `"2000-01-01"` prefix always matches, the format's literal space
becomes the regex `\s+` (absorbing any further leading whitespace of `s`),
and the remaining pattern is `%H` = `2[0-3]|[0-1]\d|\d`, a literal `:`,
`%M` = `[0-5]\d|\d`, matched with backtracking; afterwards Python raises
`ValueError` unless the match consumed the whole input.  We model exactly
that: a backtracking matcher for `H:M` on the character list, followed by
the all-consumed check. -/

/-- Numeric value of a decimal digit character. -/
def digitVal (c : Char) : Nat := c.toNat - 48

/-- Model of the `%M` regex `[0-5]\d|\d`: first alternative that matches
wins (nothing follows `%M` in the format, so no backtracking occurs).
Returns the minute value and the unconsumed remainder. -/
def matchMin : List Char → Option (Nat × List Char)
  | a :: b :: rest =>
    if a.isDigit ∧ digitVal a ≤ 5 ∧ b.isDigit then
      some (digitVal a * 10 + digitVal b, rest)
    else if a.isDigit then
      some (digitVal a, b :: rest)
    else none
  | [a] => if a.isDigit then some (digitVal a, []) else none
  | [] => none

/-- After an `%H` alternative, the format continues with `:` then `%M`. -/
def matchColonMin : List Char → Option (Nat × List Char)
  | ':' :: rest => matchMin rest
  | _ => none

/-- Model of `%H` = `2[0-3]|[0-1]\d|\d` followed by `:%M`, with regex
backtracking: a later hour alternative is tried whenever the continuation
fails for an earlier one.  Returns hour, minute, and the remainder. -/
def matchHM (cs : List Char) : Option (Nat × Nat × List Char) :=
  (match cs with
    | '2' :: b :: rest =>
      if '0' ≤ b ∧ b ≤ '3' then
        (matchColonMin rest).map (fun (m, r) => (20 + digitVal b, m, r))
      else none
    | _ => none) <|>
  (match cs with
    | a :: b :: rest =>
      if (a = '0' ∨ a = '1') ∧ b.isDigit then
        (matchColonMin rest).map (fun (m, r) => (digitVal a * 10 + digitVal b, m, r))
      else none
    | _ => none) <|>
  (match cs with
    | a :: rest =>
      if a.isDigit then
        (matchColonMin rest).map (fun (m, r) => (digitVal a, m, r))
      else none
    | _ => none)

/-- Model of `datetime.strptime(f"2000-01-01 {s}", "%Y-%m-%d %H:%M")`,
reduced to the time-of-day part: leading whitespace of `s` is absorbed by
the format's `\s+`, then `H:M` must match and consume the whole string,
otherwise Python raises `ValueError` (modelled as `none`). -/
def strptimeHM (s : String) : Option (Nat × Nat) :=
  match matchHM (s.data.dropWhile Char.isWhitespace) with
  | some (h, m, []) => some (h, m)
  | _ => none

/-! ## Service status constants (`const.py`) -/

def STATUS_ON_TIME : String := "on_time"
def STATUS_DELAYED : String := "delayed"
def STATUS_CANCELLED : String := "cancelled"
def STATUS_NORMAL : String := "Normal"
def STATUS_MINOR_DELAYS : String := "Minor Delays"
def STATUS_MAJOR_DELAYS : String := "Major Delays"
def STATUS_SEVERE_DISRUPTION : String := "Severe Disruption"
def STATUS_CRITICAL : String := "Critical"

/-- Default thresholds and validation floor (`const.py`). -/
def DEFAULT_SEVERE_DELAY_THRESHOLD : Int := 15
def DEFAULT_MAJOR_DELAY_THRESHOLD : Int := 10
def DEFAULT_MINOR_DELAY_THRESHOLD : Int := 3
def MIN_DELAY_THRESHOLD : Int := 1

/-! ## `api.py::_parse_service` — status and delay computation -/

/-- Model of Python `etd.lower() in ["cancelled", "canceled"]`
(`api.py` line 282). -/
def etdLowerIsCancelled (etd : String) : Bool :=
  decide (etd.data.map Char.toLower = "cancelled".data) ||
  decide (etd.data.map Char.toLower = "canceled".data)

/-- Model of Python substring test for a single character
(`":" in etd`). -/
def containsColon (s : String) : Bool := s.data.contains ':'

/-- The status/delay-relevant slice of one parsed service record
(`api.py::_parse_service` return value).  `delay_minutes` is a `Nat`:
the source computes `int((etd_time - std_time).total_seconds() / 60)`
after adding a day whenever `etd_time < std_time`, so the value is a
non-negative whole number of minutes. -/
structure ParsedService where
  status : String
  delay_minutes : Nat
  is_cancelled : Bool
  expected_departure : String
  deriving DecidableEq

/-- Model of `api.py::_parse_service` lines 282-306 plus the
`expected_departure or std` fallback of the returned record: cancellation
detection, delayed-status assignment, and the guarded delay computation
(both strings contain a colon, both `strptime` calls succeed, and 24 hours
are added to the expected time when it is numerically earlier than the
scheduled time; any parse failure leaves the delay at 0). -/
def parseServiceStatusDelay (std etd : String) : ParsedService :=
  let is_cancelled := etdLowerIsCancelled etd
  if ¬is_cancelled = true ∧ etd ≠ "" ∧ etd ≠ "On time" then
    let delay :=
      if containsColon etd ∧ containsColon std then
        match strptimeHM std, strptimeHM etd with
        | some (h1, m1), some (h2, m2) =>
          let stdMin := h1 * 60 + m1
          let etdMin := h2 * 60 + m2
          let etdAdj := if etdMin < stdMin then etdMin + 1440 else etdMin
          etdAdj - stdMin
        | _, _ => 0
      else 0
    { status := STATUS_DELAYED, delay_minutes := delay,
      is_cancelled := false, expected_departure := etd }
  else
    { status := if is_cancelled then STATUS_CANCELLED else STATUS_ON_TIME,
      delay_minutes := 0, is_cancelled := is_cancelled,
      expected_departure := std }

/-- Canonical zero-padded `HH:MM` rendering of an hour/minute pair, the
shape produced by `now.strftime("%H:%M")` and by the upstream provider
for well-formed departure times. -/
def toHHMM (h m : Nat) : String :=
  ⟨[Char.ofNat (48 + h / 10), Char.ofNat (48 + h % 10), ':',
    Char.ofNat (48 + m / 10), Char.ofNat (48 + m % 10)]⟩

/-! ## Coordinator data model (`coordinator.py`)

One service record as the coordinator sees it: the dictionary produced by
`_parse_service`.  Missing `platform`/`service_id` values behave like the
empty string in every consumer (`train.get("platform") or ""`, truthiness
test on `service_id`), so both are plain `String`s here. -/

structure Service where
  scheduled_departure : String
  expected_departure : String
  platform : String
  service_id : String
  delay_minutes : Nat
  status : String
  is_cancelled : Bool
  cancellation_reason : Option String
  delay_reason : Option String
  deriving DecidableEq

/-- Threshold validation in
`NationalRailDataUpdateCoordinator.__init__` (`coordinator.py` lines
99-116): a triple violating `severe >= major >= minor >= MIN_DELAY_THRESHOLD`
is replaced wholesale by the defaults. -/
def validateThresholds (severe major minor : Int) : Int × Int × Int :=
  if severe ≥ major ∧ major ≥ minor ∧ minor ≥ MIN_DELAY_THRESHOLD then
    (severe, major, minor)
  else
    (DEFAULT_SEVERE_DELAY_THRESHOLD, DEFAULT_MAJOR_DELAY_THRESHOLD,
     DEFAULT_MINOR_DELAY_THRESHOLD)

/-- Python `max((s.delay_minutes for s in services if not cancelled),
default=0)`: all delays are non-negative, so folding `max` from 0 agrees
with Python's `max` with `default=0`. -/
def maxDelayNonCancelled (services : List Service) : Nat :=
  ((services.filter (fun s => !s.is_cancelled)).map
    (fun s => s.delay_minutes)).foldl max 0

/-- Model of `coordinator.py::_calculate_overall_status`: empty list is
Normal; any cancellation is Critical; otherwise the maximum delay of
non-cancelled services is compared against the thresholds high-to-low
with inclusive comparisons. -/
def calcOverallStatus (severe major minor : Int) (services : List Service) :
    String :=
  if services.isEmpty then STATUS_NORMAL
  else if services.any (fun s => s.is_cancelled) then STATUS_CRITICAL
  else
    let maxDelay := maxDelayNonCancelled services
    if (maxDelay : Int) ≥ severe then STATUS_SEVERE_DISRUPTION
    else if (maxDelay : Int) ≥ major then STATUS_MAJOR_DELAYS
    else if (maxDelay : Int) ≥ minor then STATUS_MINOR_DELAYS
    else STATUS_NORMAL

/-- The spec's sentence for `overall_status`, written from its words: any
cancellation gives Critical; else with `d` the maximum delay over
non-cancelled services, the first inclusive threshold comparison
(severe, then major, then minor) that holds wins, else Normal. -/
def specOverallStatus (severe major minor : Int) (services : List Service) :
    String :=
  if services.any (fun s => s.is_cancelled) then STATUS_CRITICAL
  else
    let d := maxDelayNonCancelled services
    if (d : Int) ≥ severe then STATUS_SEVERE_DISRUPTION
    else if (d : Int) ≥ major then STATUS_MAJOR_DELAYS
    else if (d : Int) ≥ minor then STATUS_MINOR_DELAYS
    else STATUS_NORMAL

/-! ## `coordinator.py::_filter_departed_trains` -/

/-- The coordinator's strict departure-time regex
`_TIME_FORMAT_RE = ^\d{2}:\d{2}$`. -/
def timeFormatMatch (s : String) : Bool :=
  match s.data with
  | [a, b, c, d, e] => a.isDigit && b.isDigit && c = ':' && d.isDigit && e.isDigit
  | _ => false

/-- Python `service.get("expected_departure") or
service.get("scheduled_departure")`: the expected time with a truthiness
fallback to the scheduled time. -/
def departureTimeOf (s : Service) : String :=
  if s.expected_departure ≠ "" then s.expected_departure
  else s.scheduled_departure

/-- Per-service keep decision of
`coordinator.py::_filter_departed_trains` (lines 256-304), with `nowMin`
the wall-clock time in minutes since midnight (the source renders `now`
as `HH:MM` and re-parses it against the reference date, which yields
exactly this value).  Cancelled services are always kept; an empty or
non-`dd:dd` departure string is kept; a `strptime` failure is kept; an
in-range difference beyond ±12 hours (in seconds, as in the source) is
corrected by one day before the −120-second grace-period test. -/
def departedKeep (nowMin : Int) (s : Service) : Bool :=
  if s.is_cancelled then true
  else
    let dep := departureTimeOf s
    if dep = "" then true
    else if ¬timeFormatMatch dep then true
    else
      match strptimeHM dep with
      | none => true
      | some (h, m) =>
        let diff : Int := ((h * 60 + m : Int) - nowMin) * 60
        let diff2 :=
          if diff < -12 * 3600 then diff + 86400
          else if diff > 12 * 3600 then diff - 86400
          else diff
        decide (diff2 ≥ -120)

/-- Model of `_filter_departed_trains`: the source loops over the list
appending every kept service, which is `List.filter` of the per-service
keep decision (the `if not services: return services` fast path is the
same function on `[]`). -/
def filterDepartedTrains (nowMin : Int) (services : List Service) :
    List Service :=
  services.filter (departedKeep nowMin)

/-- The spec's minute-level day-boundary correction: a scheduled-minus-now
difference beyond ±12 hours (720 minutes) is corrected by one day
(1440 minutes). -/
def correctedDeltaMinutes (d : Int) : Int :=
  if d < -720 then d + 1440 else if d > 720 then d - 1440 else d

/-! ## `coordinator.py::_parse_data` and `_collect_delay_info` -/

/-- Snapshot fields computed by `_parse_data` from the service list (the
route/config echo fields and the two wall-clock timestamps are pure
pass-throughs of configuration and of the host clock and are not part of
any claim, so they are omitted from the embedding). -/
structure SnapshotData where
  services : List Service
  services_tracked : Nat
  total_services_found : Nat
  on_time_count : Nat
  delayed_count : Nat
  cancelled_count : Nat
  next_train : Option Service
  overall_status : String
  max_delay_minutes : Nat
  disruption_reasons : List String
  summary : String
  deriving DecidableEq

/-- Model of `coordinator.py::_collect_delay_info`: maximum delay over
non-cancelled delayed services and a deduplicated list of cancellation /
delay reasons. -/
def collectDelayInfo (services : List Service) : Nat × List String :=
  services.foldl
    (fun (acc : Nat × List String) s =>
      let (maxDelay, reasons) := acc
      if s.is_cancelled then
        match s.cancellation_reason with
        | some r => if reasons.contains r then (maxDelay, reasons)
                    else (maxDelay, reasons ++ [r])
        | none => (maxDelay, reasons)
      else if s.delay_minutes > 0 then
        let maxDelay := max maxDelay s.delay_minutes
        match s.delay_reason with
        | some r => if reasons.contains r then (maxDelay, reasons)
                    else (maxDelay, reasons ++ [r])
        | none => (maxDelay, reasons)
      else acc)
    (0, [])

/-- Model of `coordinator.py::_build_summary`: a counts-only narrative
string. -/
def buildSummary (on_time_count delayed_count cancelled_count : Nat) :
    String :=
  let total := on_time_count + delayed_count + cancelled_count
  if total = 0 then "No trains found"
  else if cancelled_count > 0 then
    if cancelled_count = total then "All trains cancelled"
    else if delayed_count > 0 then
      let running := on_time_count + delayed_count
      let plural := if running ≠ 1 then "s" else ""
      s!"{running} train{plural} running, {cancelled_count} cancelled"
    else
      let plural := if cancelled_count ≠ 1 then "s" else ""
      s!"{cancelled_count} train{plural} cancelled"
  else if delayed_count > 0 then
    if delayed_count = total then "All trains delayed"
    else if on_time_count > 0 then
      let running := on_time_count + delayed_count
      let plural := if running ≠ 1 then "s" else ""
      s!"{running} train{plural} running, {delayed_count} delayed"
    else
      let plural := if delayed_count ≠ 1 then "s" else ""
      s!"{delayed_count} train{plural} delayed"
  else
    let plural := if on_time_count ≠ 1 then "s" else ""
    s!"{on_time_count} train{plural} on time"

/-- Model of `coordinator.py::_parse_data`: limit to `num_services`,
filter departed trains, compute counts, overall status, delay info,
summary and the next-train pointer (first non-cancelled service). -/
def parseData (nowMin : Int) (severe major minor : Int) (numServices : Nat)
    (rawServices : List Service) : SnapshotData :=
  let limited := rawServices.take numServices
  let services := filterDepartedTrains nowMin limited
  let on_time_count := (services.filter (fun s => s.status = STATUS_ON_TIME)).length
  let delayed_count := (services.filter (fun s => s.status = STATUS_DELAYED)).length
  let cancelled_count := (services.filter (fun s => s.status = STATUS_CANCELLED)).length
  let (maxDelay, reasons) := collectDelayInfo services
  { services := services
    services_tracked := services.length
    total_services_found := rawServices.length
    on_time_count := on_time_count
    delayed_count := delayed_count
    cancelled_count := cancelled_count
    next_train := services.find? (fun s => !s.is_cancelled)
    overall_status := calcOverallStatus severe major minor services
    max_delay_minutes := maxDelay
    disruption_reasons := reasons
    summary := buildSummary on_time_count delayed_count cancelled_count }

/-! ## `coordinator.py::_async_update_data` failure path -/

/-- Classification of the cached snapshot's `last_updated` entry as the
failure path reads it: the field is missing or falsy; or present but
`dt_util.parse_datetime` fails (returns `None`, or raises
`ValueError`/`TypeError`, which the source swallows); or it parses to a
wall-clock instant, modelled in minutes. -/
inductive TsField where
  | missing
  | unparseable
  | parsed (t : Int)
  deriving DecidableEq

/-- A retained previous snapshot together with the classification of its
`last_updated` timestamp entry. -/
structure StoredSnapshot where
  ts : TsField
  body : SnapshotData
  deriving DecidableEq

/-- Model of the `except NationalRailAPIError` arm of
`coordinator.py::_async_update_data` (lines 209-238): `failedUpdates` is
the consecutive-failure counter after the increment, `now` the current
time in minutes; `none` is the hard failure (`UpdateFailed` raised) and
`some s` returns the previous snapshot `s` unchanged. -/
def failedUpdatePath (now : Int) (failedUpdates : Nat)
    (prev : Option StoredSnapshot) : Option StoredSnapshot :=
  if failedUpdates ≥ 3 then none
  else
    match prev with
    | some s =>
      match s.ts with
      | .parsed t => if now - t > 120 then none else some s
      | _ => some s
    | none => none

/-! ## Platform-change tracker (`sensor.py::TrainSensor._handle_coordinator_update`
and the identical `NextTrainSensor` copy) -/

/-- Per-slot tracker state: the three sensor attributes
`_previous_platform`, `_platform_changed`, `_current_service_id`. -/
structure TrackerState where
  previous_platform : Option String
  platform_changed : Bool
  current_service_id : Option String
  deriving DecidableEq

/-- Tracker state of a freshly created sensor (constructor defaults). -/
def trackerInitState : TrackerState :=
  { previous_platform := none, platform_changed := false,
    current_service_id := none }

/-- One coordinator update for a slot: `none` when fewer services than the
slot number exist, else `some (service_id, platform)` of the occupying
service, with `platform` already normalised by `train.get("platform") or ""`.
Mirrors the branch structure of `sensor.py` lines 389-426. -/
def trackerStep (st : TrackerState) (slot : Option (String × String)) :
    TrackerState :=
  match slot with
  | none => trackerInitState
  | some (sid, plat) =>
    if sid ≠ "" ∧ st.current_service_id = some sid then
      if st.previous_platform ≠ some plat then
        if st.previous_platform ≠ none then
          { st with platform_changed := true }
        else
          { st with previous_platform := some plat, platform_changed := false }
      else
        { st with platform_changed := false }
    else
      { previous_platform := some plat, platform_changed := false,
        current_service_id := some sid }

/-- Folding a sequence of per-slot snapshot observations through the
tracker, starting from the constructor state. -/
def trackerRun (obs : List (Option (String × String))) : TrackerState :=
  obs.foldl trackerStep trackerInitState

/-! ## HTTP retry engine (`api.py::_request`) -/

/-- One network attempt's result as `_request` distinguishes them: a JSON
body with an HTTP status code, an `asyncio.TimeoutError`, or an
`aiohttp.ClientError`. -/
inductive Resp where
  | status (code : Nat)
  | timeout
  | netError
  deriving DecidableEq

/-- How a call to `_request` terminates. -/
inductive ApiOutcome where
  | success
  | authError
  | invalidStation
  | rateLimit
  | apiError
  deriving DecidableEq

/-- Model of the recursion of `api.py::_request`: `responses k` is the
response to the attempt with `retry_count = k`, `attempt` the current
`retry_count` and `budget = max_retries - retry_count` (the guard
`retry_count < max_retries` holds exactly when `budget > 0`).  Returns
the outcome, the number of network attempts made, and the list of waits
(`2 ** retry_count` before each retry).  Status checks appear in source
order: 401/403, then 429, then 404, then >= 500, then
`raise_for_status()` (other 4xx raise `ClientResponseError`, handled
without retry as a generic error), and any remaining status parses the
body. -/
def requestGo (responses : Nat → Resp) : Nat → Nat → ApiOutcome × Nat × List Nat
  | attempt, budget =>
    match responses attempt with
    | .status c =>
      if c = 401 ∨ c = 403 then (.authError, 1, [])
      else if c = 429 then
        match budget with
        | b + 1 =>
          let r := requestGo responses (attempt + 1) b
          (r.1, r.2.1 + 1, 2 ^ attempt :: r.2.2)
        | 0 => (.rateLimit, 1, [])
      else if c = 404 then (.invalidStation, 1, [])
      else if 500 ≤ c then
        match budget with
        | b + 1 =>
          let r := requestGo responses (attempt + 1) b
          (r.1, r.2.1 + 1, 2 ^ attempt :: r.2.2)
        | 0 => (.apiError, 1, [])
      else if 400 ≤ c then (.apiError, 1, [])
      else (.success, 1, [])
    | .timeout =>
      match budget with
      | b + 1 =>
        let r := requestGo responses (attempt + 1) b
        (r.1, r.2.1 + 1, 2 ^ attempt :: r.2.2)
      | 0 => (.apiError, 1, [])
    | .netError =>
      match budget with
      | b + 1 =>
        let r := requestGo responses (attempt + 1) b
        (r.1, r.2.1 + 1, 2 ^ attempt :: r.2.2)
      | 0 => (.apiError, 1, [])

/-- A call of `_request` with the default arguments
`retry_count=0, max_retries=3`. -/
def request (responses : Nat → Resp) : ApiOutcome × Nat × List Nat :=
  requestGo responses 0 3

/-! ## Exception taxonomy (`api.py` lines 29-43) -/

/-- The exception classes declared in `api.py`, plus Python's built-in
`Exception` as `PyExc`. -/
inductive ExcClass where
  | PyExc
  | NationalRailAPIError
  | AuthenticationError
  | InvalidStationError
  | RateLimitError
  deriving DecidableEq

/-- The declared direct superclass of each class
(`class AuthenticationError(NationalRailAPIError)` and friends). -/
def superclass : ExcClass → Option ExcClass
  | .PyExc => none
  | .NationalRailAPIError => some .PyExc
  | .AuthenticationError => some .NationalRailAPIError
  | .InvalidStationError => some .NationalRailAPIError
  | .RateLimitError => some .NationalRailAPIError

/-- The exception class each failing outcome raises. -/
def outcomeClass : ApiOutcome → Option ExcClass
  | .success => none
  | .authError => some .AuthenticationError
  | .invalidStation => some .InvalidStationError
  | .rateLimit => some .RateLimitError
  | .apiError => some .NationalRailAPIError

/-! ## Helper lemmas -/

/-- Every canonical `HH:MM` string is non-empty, is not a cancellation
marker, is not the literal `"On time"`, contains a colon, and `strptime`
recovers exactly its hour and minute. -/
lemma toHHMM_props : ∀ h, h < 24 → ∀ m, m < 60 →
    etdLowerIsCancelled (toHHMM h m) = false ∧ toHHMM h m ≠ "" ∧
    toHHMM h m ≠ "On time" ∧ containsColon (toHHMM h m) = true ∧
    strptimeHM (toHHMM h m) = some (h, m) := by decide

/-! ## Claims -/

/-- C1: for every filtered service list, `overall_status` follows the
strict priority order of the spec — any cancellation gives Critical,
otherwise the maximum delay over non-cancelled services is compared
inclusively against the severe, major and minor thresholds in that order,
defaulting to Normal — whenever the thresholds satisfy the validated
hierarchy `severe ≥ major ≥ minor ≥ MIN_DELAY_THRESHOLD`. -/
theorem overall_status_matches_spec (severe major minor : Int)
    (services : List Service) (h1 : severe ≥ major) (h2 : major ≥ minor)
    (h3 : minor ≥ MIN_DELAY_THRESHOLD) :
    calcOverallStatus severe major minor services =
      specOverallStatus severe major minor services := by
  simp only [MIN_DELAY_THRESHOLD] at h3
  cases services with
  | nil =>
    simp only [calcOverallStatus, specOverallStatus, maxDelayNonCancelled,
      List.isEmpty_nil, List.any_nil, List.filter_nil, List.map_nil,
      List.foldl_nil, if_true, Bool.false_eq_true, if_false, Nat.cast_zero]
    rw [if_neg (by omega), if_neg (by omega), if_neg (by omega)]
  | cons a l => rfl

/-- C1 witness: instantiating the theorem at the default thresholds and a
single service delayed by exactly the major threshold. -/
theorem overall_status_matches_spec_witness :
    calcOverallStatus 15 10 3
        [⟨"08:30", "08:40", "1", "A", 10, "delayed", false, none, none⟩] =
      specOverallStatus 15 10 3
        [⟨"08:30", "08:40", "1", "A", 10, "delayed", false, none, none⟩] :=
  overall_status_matches_spec 15 10 3 _ (by decide) (by decide) (by decide)

/-- C2: for every non-cancelled service whose `std` and `etd` are both
canonical `HH:MM` times, the parser's `delay_minutes` is `etd - std` in
whole minutes with 24 hours added to `etd` when it is numerically earlier
than `std`; in particular std=08:50, etd=09:05 gives 15 with status
delayed, and std=23:50, etd=00:05 gives 15 rather than a negative
value. -/
theorem parse_service_delay_hhmm :
    (∀ h1, h1 < 24 → ∀ m1, m1 < 60 → ∀ h2, h2 < 24 → ∀ m2, m2 < 60 →
      (parseServiceStatusDelay (toHHMM h1 m1) (toHHMM h2 m2)).delay_minutes =
        (if h2 * 60 + m2 < h1 * 60 + m1 then h2 * 60 + m2 + 1440
         else h2 * 60 + m2) - (h1 * 60 + m1) ∧
      (parseServiceStatusDelay (toHHMM h1 m1) (toHHMM h2 m2)).is_cancelled =
        false) ∧
    parseServiceStatusDelay "08:50" "09:05" =
      ⟨STATUS_DELAYED, 15, false, "09:05"⟩ ∧
    parseServiceStatusDelay "23:50" "00:05" =
      ⟨STATUS_DELAYED, 15, false, "00:05"⟩ := by
  refine ⟨?_, by decide, by decide⟩
  intro h1 hh1 m1 hm1 h2 hh2 m2 hm2
  obtain ⟨-, -, -, hcol1, hp1⟩ := toHHMM_props h1 hh1 m1 hm1
  obtain ⟨hc2, hne2, hnot2, hcol2, hp2⟩ := toHHMM_props h2 hh2 m2 hm2
  simp [parseServiceStatusDelay, hc2, hne2, hnot2, hcol1, hcol2, hp1, hp2]

/-- C2 witness: the theorem applied at the midnight-rollover input
23:50 → 00:05 yields 15 minutes. -/
theorem parse_service_delay_hhmm_witness :
    (parseServiceStatusDelay (toHHMM 23 50) (toHHMM 0 5)).delay_minutes = 15 := by
  have h := (parse_service_delay_hhmm.1 23 (by decide) 50 (by decide) 0
    (by decide) 5 (by decide)).1
  norm_num at h
  exact h

/-- C3 (code evaluation at the failing input): the claim requires
`delay_minutes = 0` for every `etd` not strictly matching `HH:MM`, but the
code's guard is only a colon-containment test followed by Python
`strptime` with `%H:%M`, which accepts single-digit hours: etd="9:05"
with std="08:35" yields 30, contradicting the repository's own test
`test_parse_service_invalid_time_format_no_delay`; the other malformed
shapes do fail open to 0. -/
theorem malformed_etd_delay_eval :
    (parseServiceStatusDelay "08:35" "9:05").delay_minutes = 30 ∧
    (parseServiceStatusDelay "8:35" "09:05").delay_minutes = 30 ∧
    (parseServiceStatusDelay "08:35" "abc:de").delay_minutes = 0 ∧
    (parseServiceStatusDelay "08:35" "09:05:30").delay_minutes = 0 ∧
    (parseServiceStatusDelay "08:35" "Delayed: 5").delay_minutes = 0 := by
  decide

/-- C4: the departed-train filter keeps cancelled services
unconditionally, keeps services with a missing or unparseable departure
time, and keeps a parseable non-cancelled service iff its departure
(expected falling back to scheduled) is at most 2 minutes in the past
after the ±12-hour day-boundary correction; at 08:36 an expected
departure of 08:34 is retained and 08:33 is dropped. -/
theorem departed_filter_spec (nowMin : Int) (s : Service) (h m : Nat) :
    (s.is_cancelled = true → departedKeep nowMin s = true) ∧
    (departureTimeOf s = "" → departedKeep nowMin s = true) ∧
    (timeFormatMatch (departureTimeOf s) = false → departedKeep nowMin s = true) ∧
    (strptimeHM (departureTimeOf s) = none → departedKeep nowMin s = true) ∧
    (s.is_cancelled = false → strptimeHM (departureTimeOf s) = some (h, m) →
      timeFormatMatch (departureTimeOf s) = true → departureTimeOf s ≠ "" →
      (departedKeep nowMin s = true ↔
        correctedDeltaMinutes ((h * 60 + m : Int) - nowMin) ≥ -2)) ∧
    filterDepartedTrains (8 * 60 + 36)
        [⟨"08:30", "08:34", "1", "A", 4, "delayed", false, none, none⟩] =
      [⟨"08:30", "08:34", "1", "A", 4, "delayed", false, none, none⟩] ∧
    filterDepartedTrains (8 * 60 + 36)
        [⟨"08:30", "08:33", "1", "A", 3, "delayed", false, none, none⟩] = [] := by
  refine ⟨?_, ?_, ?_, ?_, ?_, by decide, by decide⟩
  · intro hc
    simp [departedKeep, hc]
  · intro hdep
    cases hc : s.is_cancelled <;> simp [departedKeep, hc, hdep]
  · intro htf
    cases hc : s.is_cancelled <;>
      by_cases hdep : departureTimeOf s = "" <;>
        simp [departedKeep, hc, hdep, htf]
  · intro hp
    cases hc : s.is_cancelled <;>
      by_cases hdep : departureTimeOf s = "" <;>
        by_cases htf : timeFormatMatch (departureTimeOf s) = true <;>
          simp [departedKeep, hc, hdep, htf, hp]
  · intro hc hp htf hdep
    simp only [departedKeep, hc, Bool.false_eq_true, if_false]
    rw [if_neg hdep]
    rw [if_neg (by simp [htf])]
    rw [hp]
    simp only [decide_eq_true_eq, correctedDeltaMinutes]
    split_ifs <;> omega

/-- C4 witness: the theorem's cancelled-service conjunct at a concrete
cancelled service. -/
theorem departed_filter_spec_witness :
    departedKeep 516 ⟨"08:00", "", "1", "A", 0, "cancelled", true, some "r", none⟩ =
      true :=
  (departed_filter_spec 516
    ⟨"08:00", "", "1", "A", 0, "cancelled", true, some "r", none⟩ 0 0).1 rfl

/-- C5 counterexample: the claim says the changed flag stays set through
any further platform churn until the service leaves the slot, but when
the platform churns back to the frozen `previous_platform` the code's
equality branch clears the flag while the same service still occupies the
slot: after S1 on 3, then 5 (flagged), then 3 again, `platform_changed`
is false although `current_service_id` is still S1. -/
theorem tracker_flag_clears_on_revert :
    (trackerRun [some ("S1", "3"), some ("S1", "5")]).platform_changed = true ∧
    (trackerRun [some ("S1", "3"), some ("S1", "5"),
      some ("S1", "3")]).platform_changed = false ∧
    (trackerRun [some ("S1", "3"), some ("S1", "5"),
      some ("S1", "3")]).current_service_id = some "S1" := by
  decide

/-- C5 (amended): a new slot occupant is never flagged and its platform is
recorded; a same-service observation differing from the recorded
`previous_platform` sets the flag and freezes `previous_platform`; a
same-service observation equal to the recorded value clears the flag; an
empty slot resets the state; and the flag stays set through further churn
exactly while the platform differs from the frozen value, as in the
spec's 3 → 5 → 7 example. -/
theorem tracker_step_spec (st : TrackerState) (sid plat pp : String) :
    (trackerStep st none = trackerInitState) ∧
    (st.current_service_id ≠ some sid →
      trackerStep st (some (sid, plat)) = ⟨some plat, false, some sid⟩) ∧
    (sid = "" →
      trackerStep st (some (sid, plat)) = ⟨some plat, false, some sid⟩) ∧
    (sid ≠ "" → st.current_service_id = some sid →
      st.previous_platform = some pp → pp ≠ plat →
      trackerStep st (some (sid, plat)) = ⟨some pp, true, some sid⟩) ∧
    (sid ≠ "" → st.current_service_id = some sid →
      st.previous_platform = some pp → pp = plat →
      trackerStep st (some (sid, plat)) = ⟨some pp, false, some sid⟩) ∧
    trackerRun [some ("S1", "3"), some ("S1", "5"), some ("S1", "7")] =
      ⟨some "3", true, some "S1"⟩ ∧
    trackerRun [some ("S1", "3"), some ("S1", "5"), some ("S1", "7"),
      some ("S2", "4")] = ⟨some "4", false, some "S2"⟩ := by
  refine ⟨rfl, ?_, ?_, ?_, ?_, by decide, by decide⟩
  · intro hcur
    simp [trackerStep, hcur]
  · intro hsid
    simp [trackerStep, hsid]
  · intro hsid hcur hprev hne
    simp [trackerStep, hsid, hcur, hprev, hne]
  · intro hsid hcur hprev heq
    simp [trackerStep, hsid, hcur, hprev, heq]

/-- C5 witness: the divergence conjunct applied at a tracked service S1
with frozen platform 3 observing platform 5. -/
theorem tracker_step_spec_witness :
    trackerStep ⟨some "3", false, some "S1"⟩ (some ("S1", "5")) =
      ⟨some "3", true, some "S1"⟩ :=
  (tracker_step_spec ⟨some "3", false, some "S1"⟩ "S1" "5" "3").2.2.2.1
    (by decide) rfl rfl (by decide)

/-- C6: a request answered 429 on every attempt makes exactly 4 network
attempts (1 initial + 3 retries, the default ceiling), waits 2^k time
units after attempt k (waits 1, 2, 4), and ends in RateLimitError. -/
theorem rate_limit_retry_ceiling (responses : Nat → Resp)
    (h : ∀ k, k ≤ 3 → responses k = .status 429) :
    request responses = (.rateLimit, 4, [1, 2, 4]) := by
  have h0 := h 0 (by norm_num)
  have h1 := h 1 (by norm_num)
  have h2 := h 2 (by norm_num)
  have h3 := h 3 (by norm_num)
  simp [request, requestGo, h0, h1, h2, h3]

/-- C6 witness: the theorem at the constant-429 response stream. -/
theorem rate_limit_retry_ceiling_witness :
    request (fun _ => .status 429) = (.rateLimit, 4, [1, 2, 4]) :=
  rate_limit_retry_ceiling (fun _ => .status 429) (fun _ _ => rfl)

/-- C7: outcomes follow the status classification table — 401/403 raise
AuthenticationError with no retry, 404 raises InvalidStationError with no
retry, while 429, 5xx, timeouts and network failures are retried to the
ceiling and then raise RateLimitError or the generic ApiError; and all
four error classes sit under the single root NationalRailAPIError. -/
theorem http_status_classification (responses : Nat → Resp) (c : Nat) :
    (responses 0 = .status 401 → request responses = (.authError, 1, [])) ∧
    (responses 0 = .status 403 → request responses = (.authError, 1, [])) ∧
    (responses 0 = .status 404 → request responses = (.invalidStation, 1, [])) ∧
    ((∀ k, k ≤ 3 → responses k = .status 429) →
      request responses = (.rateLimit, 4, [1, 2, 4])) ∧
    (500 ≤ c → (∀ k, k ≤ 3 → responses k = .status c) →
      request responses = (.apiError, 4, [1, 2, 4])) ∧
    ((∀ k, k ≤ 3 → responses k = .timeout) →
      request responses = (.apiError, 4, [1, 2, 4])) ∧
    ((∀ k, k ≤ 3 → responses k = .netError) →
      request responses = (.apiError, 4, [1, 2, 4])) ∧
    superclass .AuthenticationError = some .NationalRailAPIError ∧
    superclass .InvalidStationError = some .NationalRailAPIError ∧
    superclass .RateLimitError = some .NationalRailAPIError ∧
    (∀ o : ApiOutcome, o ≠ .success → ∃ e, outcomeClass o = some e ∧
      (e = .NationalRailAPIError ∨ superclass e = some .NationalRailAPIError)) := by
  refine ⟨?_, ?_, ?_, ?_, ?_, ?_, ?_, rfl, rfl, rfl, ?_⟩
  · intro h0
    simp [request, requestGo, h0]
  · intro h0
    simp [request, requestGo, h0]
  · intro h0
    simp [request, requestGo, h0]
  · intro h
    have h0 := h 0 (by norm_num)
    have h1 := h 1 (by norm_num)
    have h2 := h 2 (by norm_num)
    have h3 := h 3 (by norm_num)
    simp [request, requestGo, h0, h1, h2, h3]
  · intro hc h
    have h0 := h 0 (by norm_num)
    have h1 := h 1 (by norm_num)
    have h2 := h 2 (by norm_num)
    have h3 := h 3 (by norm_num)
    have n1 : ¬(c = 401 ∨ c = 403) := by omega
    have n2 : ¬(c = 429) := by omega
    have n3 : ¬(c = 404) := by omega
    simp [request, requestGo, h0, h1, h2, h3, n1, n2, n3, hc]
  · intro h
    have h0 := h 0 (by norm_num)
    have h1 := h 1 (by norm_num)
    have h2 := h 2 (by norm_num)
    have h3 := h 3 (by norm_num)
    simp [request, requestGo, h0, h1, h2, h3]
  · intro h
    have h0 := h 0 (by norm_num)
    have h1 := h 1 (by norm_num)
    have h2 := h 2 (by norm_num)
    have h3 := h 3 (by norm_num)
    simp [request, requestGo, h0, h1, h2, h3]
  · intro o ho
    cases o <;> simp_all [outcomeClass, superclass]

/-- C7 witness: the 401 conjunct at the constant-401 response stream. -/
theorem http_status_classification_witness :
    request (fun _ => .status 401) = (.authError, 1, []) :=
  (http_status_classification (fun _ => .status 401) 500).1 rfl

/-- C8: a threshold triple with severe ≥ major ≥ minor ≥ 1 is kept
exactly as given — including (15,10,3), (60,30,1), (5,5,5), (1,1,1) —
and any violating triple is replaced wholesale by the defaults (15,10,3),
never partially corrected. -/
theorem threshold_validation_spec :
    (∀ s m n : Int, s ≥ m → m ≥ n → n ≥ 1 →
      validateThresholds s m n = (s, m, n)) ∧
    (∀ s m n : Int, ¬(s ≥ m ∧ m ≥ n ∧ n ≥ 1) →
      validateThresholds s m n = (15, 10, 3)) ∧
    (∀ s m n : Int, validateThresholds s m n = (s, m, n) ∨
      validateThresholds s m n = (15, 10, 3)) ∧
    validateThresholds 15 10 3 = (15, 10, 3) ∧
    validateThresholds 60 30 1 = (60, 30, 1) ∧
    validateThresholds 5 5 5 = (5, 5, 5) ∧
    validateThresholds 1 1 1 = (1, 1, 1) ∧
    validateThresholds 5 10 3 = (15, 10, 3) ∧
    validateThresholds 15 3 10 = (15, 10, 3) ∧
    validateThresholds 15 10 0 = (15, 10, 3) ∧
    validateThresholds 0 0 0 = (15, 10, 3) ∧
    validateThresholds (-1) (-2) (-3) = (15, 10, 3) ∧
    validateThresholds 10 15 3 = (15, 10, 3) ∧
    validateThresholds 3 2 5 = (15, 10, 3) := by
  refine ⟨?_, ?_, ?_, by decide, by decide, by decide, by decide, by decide,
    by decide, by decide, by decide, by decide, by decide, by decide⟩
  · intro s m n hs hm hn
    simp [validateThresholds, MIN_DELAY_THRESHOLD, hs, hm, hn]
  · intro s m n h
    rw [validateThresholds, if_neg (by simpa [MIN_DELAY_THRESHOLD] using h)]
    rfl
  · intro s m n
    unfold validateThresholds
    split_ifs
    · left
      rfl
    · right
      rfl

/-- C8 witness: the keep-as-given conjunct at the default triple. -/
theorem threshold_validation_spec_witness :
    validateThresholds 15 10 3 = (15, 10, 3) :=
  threshold_validation_spec.1 15 10 3 (by decide) (by decide) (by decide)

/-- C9: on a fetch failure, a counter at 3 hard-fails; otherwise a cached
snapshot whose timestamp parses and is older than 2 hours hard-fails; an
existing cached snapshot is otherwise returned unchanged, also when its
timestamp is missing or fails to parse; and with no cached snapshot the
refresh hard-fails. -/
theorem update_failure_path_spec (now : Int) (f : Nat) (s : StoredSnapshot)
    (t : Int) :
    (f ≥ 3 → ∀ prev, failedUpdatePath now f prev = none) ∧
    (f < 3 → failedUpdatePath now f none = none) ∧
    (f < 3 → s.ts = .parsed t → now - t > 120 →
      failedUpdatePath now f (some s) = none) ∧
    (f < 3 → s.ts = .parsed t → now - t ≤ 120 →
      failedUpdatePath now f (some s) = some s) ∧
    (f < 3 → s.ts = .unparseable → failedUpdatePath now f (some s) = some s) ∧
    (f < 3 → s.ts = .missing → failedUpdatePath now f (some s) = some s) := by
  refine ⟨?_, ?_, ?_, ?_, ?_, ?_⟩
  · intro hf prev
    simp [failedUpdatePath, hf]
  · intro hf
    simp [failedUpdatePath, Nat.not_le.mpr hf]
  · intro hf hts hage
    simp [failedUpdatePath, Nat.not_le.mpr hf, hts, hage]
  · intro hf hts hage
    simp [failedUpdatePath, Nat.not_le.mpr hf, hts, Int.not_lt.mpr hage]
  · intro hf hts
    simp [failedUpdatePath, Nat.not_le.mpr hf, hts]
  · intro hf hts
    simp [failedUpdatePath, Nat.not_le.mpr hf, hts]

/-- C9 witness: serve-stale with an unparseable cached timestamp after
two consecutive failures. -/
theorem update_failure_path_spec_witness :
    failedUpdatePath 1000 2 (some ⟨.unparseable, parseData 0 15 10 3 0 []⟩) =
      some ⟨.unparseable, parseData 0 15 10 3 0 []⟩ :=
  (update_failure_path_spec 1000 2
    ⟨.unparseable, parseData 0 15 10 3 0 []⟩ 0).2.2.2.2.1 (by norm_num) rfl

/-- C10: when the post-limit, post-filter service list is empty the
snapshot builder still succeeds, with overall_status Normal, no next
train, and zero on-time, delayed and cancelled counts. -/
theorem empty_filtered_list_snapshot (nowMin severe major minor : Int)
    (numServices : Nat) (raw : List Service)
    (h : filterDepartedTrains nowMin (raw.take numServices) = []) :
    (parseData nowMin severe major minor numServices raw).overall_status =
      STATUS_NORMAL ∧
    (parseData nowMin severe major minor numServices raw).next_train = none ∧
    (parseData nowMin severe major minor numServices raw).on_time_count = 0 ∧
    (parseData nowMin severe major minor numServices raw).delayed_count = 0 ∧
    (parseData nowMin severe major minor numServices raw).cancelled_count = 0 := by
  refine ⟨?_, ?_, ?_, ?_, ?_⟩ <;>
    simp [parseData, h, calcOverallStatus]

/-- C10 witness: the empty provider response. -/
theorem empty_filtered_list_snapshot_witness :
    (parseData 516 15 10 3 3 []).overall_status = STATUS_NORMAL ∧
    (parseData 516 15 10 3 3 []).next_train = none ∧
    (parseData 516 15 10 3 3 []).on_time_count = 0 ∧
    (parseData 516 15 10 3 3 []).delayed_count = 0 ∧
    (parseData 516 15 10 3 3 []).cancelled_count = 0 :=
  empty_filtered_list_snapshot 516 15 10 3 3 [] rfl

end RailCommute
